import Mathlib

/-!
# Verification of the Impuls Python function runtime

Shallow embedding of `impuls/runtimes/python/runtime.py`: the single-slot
handler cache (`load_function`), the sync/async dispatch bridge
(`execute_handler` / `execute_handler_async`), the invocation context
(`LambdaContext.get_remaining_time_in_millis`), and the `/invoke` request
handling of `RuntimeHandler.do_POST` (request defaults, environment overlay,
outcome payloads).

Modelling conventions:
* Python values crossing the JSON boundary are `PyVal`.
* Exceptions are explicit `Except` results; the distinct `raise` sites of
  `runtime.py` become the constructors of `PyError`, and `PyError.message`
  recovers the exact `str(e)` text the code produces.
* Wall-clock instants (`time.time()`) are rationals passed explicitly.
* Executing the materialized module (`spec.loader.exec_module`) is the one
  genuinely dynamic step; it is a parameter `execModule` mapping the source
  text to either a module (an attribute table) or an exception message.
  It receives the process environment so that executed code can observe it.
* The mutable globals `cached_handler` / `cached_code` and the file at
  `FUNCTION_DIR/function.py` form the explicit state `RtState`; event loops
  are tracked by `LoopState` so their creation and teardown are visible.
-/

/-- A structured (JSON-like) Python value. -/
inductive PyVal : Type where
  | null : PyVal
  | bool (b : Bool) : PyVal
  | int (n : Int) : PyVal
  | str (s : String) : PyVal
  | list (xs : List PyVal) : PyVal
  | dict (kvs : List (String × PyVal)) : PyVal

/-- The exceptions `runtime.py` can surface from resolution or execution:
the three explicit `raise ValueError` sites of `load_function` and, for
everything else (module-exec failures, `RuntimeError("Failed to load
function module")`, exceptions raised by the handler), the raw message. -/
inductive PyError : Type where
  | invalidHandlerFormat (handler : String) : PyError
  | handlerNotFound (name : String) : PyError
  | handlerNotCallable (name : String) : PyError
  | raised (msg : String) : PyError
  deriving DecidableEq

/-- `str(e)` for each raise site of `runtime.py`. -/
def PyError.message : PyError → String
  | .invalidHandlerFormat h =>
      "Invalid handler format: " ++ h ++ " (expected \x27module.function\x27)"
  | .handlerNotFound n => "Handler \x27" ++ n ++ "\x27 not found in module"
  | .handlerNotCallable n => "Handler \x27" ++ n ++ "\x27 is not callable"
  | .raised msg => msg

/-- `traceback.format_exc()`: a diagnostic trace for the caught exception.
Always begins with the traceback banner, hence never empty. -/
def format_exc (e : PyError) : String :=
  "Traceback (most recent call last):\n" ++ e.message

/-- The process environment / an environment overlay (`os.environ`, `env`). -/
abbrev Env := List (String × String)

/-- `LambdaContext.__init__`: identity, limits and the creation instant
(`time.time()` is the explicit `start_time`). -/
structure LambdaContext : Type where
  function_name : String
  function_version : String
  memory_limit_in_mb : Int
  timeout_sec : Int
  start_time : ℚ

/-- `LambdaContext.get_remaining_time_in_millis`, evaluated at wall-clock
instant `now`: `int(max(0, (timeout_sec - elapsed) * 1000))`.  The `max`
makes the quantity non-negative, so Python `int()` truncation is `⌊·⌋`. -/
def LambdaContext.get_remaining_time_in_millis (ctx : LambdaContext) (now : ℚ) : ℤ :=
  let elapsed : ℚ := now - ctx.start_time
  let remaining : ℚ := max 0 ((ctx.timeout_sec - elapsed) * 1000)
  ⌊remaining⌋

/-- A cooperative (asyncio) computation: a value reached after finitely many
suspension points. `run_until_complete` drives it to completion. -/
inductive Coro (α : Type) : Type where
  | done (a : α) : Coro α
  | later (rest : Coro α) : Coro α

/-- `loop.run_until_complete`: drive a coroutine through its suspension
points to its final value. -/
def run_until_complete {α : Type} : Coro α → α
  | .done a => a
  | .later rest => run_until_complete rest

/-- What a handler call produces: a value, or a raised exception. -/
abbrev HandlerResult := Except PyError PyVal

/-- A resolved handler artifact, tagged by execution model exactly as
`asyncio.iscoroutinefunction` classifies it: `immediate` is a plain
function of `(event, context)`, `suspending` is a coroutine function.
Both observe the process environment at call time. -/
inductive Handler : Type where
  | immediate (f : Env → PyVal → LambdaContext → HandlerResult) : Handler
  | suspending (f : Env → PyVal → LambdaContext → Coro HandlerResult) : Handler

/-- A module attribute: either callable or a plain value. -/
inductive PyAttr : Type where
  | callable (h : Handler) : PyAttr
  | value (v : PyVal) : PyAttr

/-- A loaded module: its attribute table (`hasattr`/`getattr` = lookup). -/
abbrev PyModule := List (String × PyAttr)

/-- Python `handler.rsplit(".", 1)`: split on the **last** dot when the
string contains one (the part before it and the part after it), otherwise
the whole string as a single part. -/
def rsplitDot (s : String) : List String :=
  let rev := s.data.reverse
  let after := rev.takeWhile (fun c => c != '.')
  match rev.dropWhile (fun c => c != '.') with
  | [] => [s]
  | _ :: before => [String.mk before.reverse, String.mk after.reverse]

/-- The runtime's mutable state: the module-level globals `cached_handler`
and `cached_code`, and the content of the materialized file
`FUNCTION_DIR/function.py` (`none` before any write). -/
structure RtState : Type where
  cached_handler : Option Handler
  cached_code : Option String
  functionFile : Option String

/-- Result of `load_function`: the returned handler or raised exception, the
state afterwards, and whether the non-cache path ran / wrote the file. -/
structure LoadOutcome : Type where
  result : Except PyError Handler
  state : RtState
  resolverRan : Bool
  wroteFile : Bool

/-- The non-cached path of `load_function` (everything after the cache
check): parse the descriptor, write the source to `function.py`, execute
the module, resolve and validate the attribute, then fill both cache
globals.  `execModule` stands for `spec_from_file_location` +
`exec_module` applied to the file content just written (which is `code`);
its `Except.error` covers both a module that raises on execution and the
`RuntimeError` for an unloadable spec. -/
def resolve_function (execModule : String → Except String PyModule)
    (code : String) (handler : String) (s : RtState) : LoadOutcome :=
  match rsplitDot handler with
  | [_, handler_function] =>
    let s1 : RtState := { s with functionFile := some code }
    match execModule code with
    | .error msg => ⟨.error (.raised msg), s1, true, true⟩
    | .ok attrs =>
      match attrs.lookup handler_function with
      | none => ⟨.error (.handlerNotFound handler_function), s1, true, true⟩
      | some (.value _) => ⟨.error (.handlerNotCallable handler_function), s1, true, true⟩
      | some (.callable handler_fn) =>
          ⟨.ok handler_fn,
           { s1 with cached_code := some code, cached_handler := some handler_fn },
           true, true⟩
  | _ => ⟨.error (.invalidHandlerFormat handler), s, true, false⟩

/-- `load_function(code, handler)`: return the cached handler when
`cached_code == code and cached_handler is not None`, otherwise resolve. -/
def load_function (execModule : String → Except String PyModule)
    (code : String) (handler : String) (s : RtState) : LoadOutcome :=
  match s.cached_code, s.cached_handler with
  | some c, some h =>
      if c = code then ⟨.ok h, s, false, false⟩
      else resolve_function execModule code handler s
  | _, _ => resolve_function execModule code handler s

/-! ## Dispatch bridge -/

/-- A visible event in the life of an asyncio event loop. -/
inductive LoopEvent : Type where
  | created (id : ℕ) : LoopEvent
  | closed (id : ℕ) : LoopEvent
  deriving DecidableEq

/-- Book-keeping for asyncio event loops: the id the next
`asyncio.new_event_loop()` will allocate, the loops currently open, and the
trace of creations and closures. -/
structure LoopState : Type where
  nextId : ℕ
  openLoops : List ℕ
  events : List LoopEvent

/-- `asyncio.new_event_loop()`: allocate a fresh loop. -/
def new_event_loop (ls : LoopState) : ℕ × LoopState :=
  (ls.nextId,
   ⟨ls.nextId + 1, ls.nextId :: ls.openLoops, ls.events ++ [.created ls.nextId]⟩)

/-- `loop.close()`: tear the loop down. -/
def close_loop (id : ℕ) (ls : LoopState) : LoopState :=
  ⟨ls.nextId, ls.openLoops.erase id, ls.events ++ [.closed id]⟩

/-- `execute_handler_async(handler, event, context)`: await a coroutine
function, call a plain function directly; in both cases a coroutine whose
final value is the handler's result. -/
def execute_handler_async (h : Handler) (env : Env) (event : PyVal)
    (context : LambdaContext) : Coro HandlerResult :=
  match h with
  | .suspending f => f env event context
  | .immediate f => .done (f env event context)

/-- `execute_handler(handler, event, context)`: for a coroutine function,
create a private event loop, drive the handler to completion on it with
`run_until_complete`, and close the loop in a `finally` (so on every
outcome); for a plain function, call it directly, touching no loop. -/
def execute_handler (h : Handler) (env : Env) (event : PyVal)
    (context : LambdaContext) (ls : LoopState) : HandlerResult × LoopState :=
  match h with
  | .suspending f =>
      let (id, ls1) := new_event_loop ls
      let r := run_until_complete (execute_handler_async (.suspending f) env event context)
      (r, close_loop id ls1)
  | .immediate f => (f env event context, ls)

/-! ## Environment overlay -/

/-- `os.environ[k] = v`: replace the binding of `k`, or append it. -/
def envSet (k v : String) : Env → Env
  | [] => [(k, v)]
  | (k2, v2) :: rest =>
      if k2 = k then (k, v) :: rest else (k2, v2) :: envSet k v rest

/-- `os.environ.get(k)`. -/
def envGet (k : String) : Env → Option String
  | [] => none
  | (k2, v) :: rest => if k2 = k then some v else envGet k rest

/-- `for key, value in env.items(): os.environ[key] = value` — apply every
pair of the overlay to the process environment, in order. -/
def applyEnv (overlay : Env) (e : Env) : Env :=
  overlay.foldl (fun acc kv => envSet kv.1 kv.2 acc) e

/-- The binding an overlay itself assigns to `k` (its last pair for `k`,
matching dict semantics where a later duplicate wins). -/
def lookupLast (k : String) : Env → Option String
  | [] => none
  | (k2, v) :: rest =>
      match lookupLast k rest with
      | some v2 => some v2
      | none => if k2 = k then some v else none

/-! ## The `/invoke` engine (`RuntimeHandler.do_POST`) -/

/-- The parsed JSON body of a `/invoke` request: each field is absent or
present, before defaulting. -/
structure RawRequest : Type where
  code : Option String
  handler : Option String
  event : Option PyVal
  env : Option Env
  function_name : Option String
  memory_mb : Option Int
  timeout_sec : Option Int

/-- An invocation request after defaulting. -/
structure InvocationRequest : Type where
  code : String
  handler : String
  event : PyVal
  env : Env
  function_name : String
  memory_mb : Int
  timeout_sec : Int

/-- The `request.get(field, default)` extraction block of `do_POST`. -/
def withDefaults (r : RawRequest) : InvocationRequest where
  code := r.code.getD ""
  handler := r.handler.getD "handler.handler"
  event := r.event.getD (.dict [])
  env := r.env.getD []
  function_name := r.function_name.getD "unknown"
  memory_mb := r.memory_mb.getD 128
  timeout_sec := r.timeout_sec.getD 30

/-- All process state the engine touches: the cache/file state, the process
environment, and the event-loop book-keeping. -/
structure EngineState : Type where
  rt : RtState
  procEnv : Env
  loops : LoopState

/-- The JSON body `do_POST` sends back: either
`{"statusCode": 200, "body": result}` or
`{"statusCode": 500, "error": str(e), "stack": traceback.format_exc()}`. -/
inductive ResponsePayload : Type where
  | success (body : PyVal) : ResponsePayload
  | failure (error : String) (stack : String) : ResponsePayload

/-- The `statusCode` field inside the payload. -/
def ResponsePayload.statusCode : ResponsePayload → ℕ
  | .success _ => 200
  | .failure _ _ => 500

/-- A transport-level reply: the HTTP status sent with `send_response`
plus the JSON payload. -/
structure HttpResponse : Type where
  httpStatus : ℕ
  payload : ResponsePayload

/-- The process environment after the overlay loop of `do_POST`. -/
def engineEnv (raw : RawRequest) (st : EngineState) : Env :=
  applyEnv (withDefaults raw).env st.procEnv

/-- The `load_function` call of `do_POST`: the module is executed under the
already-overlaid environment. -/
def engineLoad (execM : Env → String → Except String PyModule)
    (raw : RawRequest) (st : EngineState) : LoadOutcome :=
  load_function (execM (engineEnv raw st)) (withDefaults raw).code
    (withDefaults raw).handler st.rt

/-- The `LambdaContext(...)` built by `do_POST`, created at instant `now`. -/
def engineCtx (raw : RawRequest) (now : ℚ) : LambdaContext :=
  ⟨(withDefaults raw).function_name, "1", (withDefaults raw).memory_mb,
   (withDefaults raw).timeout_sec, now⟩

/-- The `/invoke` branch of `RuntimeHandler.do_POST`, from the parsed
request on: apply the environment overlay, load the function, build the
context, execute the handler, and answer — HTTP 200 always, with a
success payload carrying the handler result or a failure payload carrying
`str(e)` and the traceback for any exception caught by the `except`. -/
def handle_invoke (execM : Env → String → Except String PyModule)
    (raw : RawRequest) (now : ℚ) (st : EngineState) :
    HttpResponse × EngineState :=
  match (engineLoad execM raw st).result with
  | .error e =>
      (⟨200, .failure e.message (format_exc e)⟩,
       ⟨(engineLoad execM raw st).state, engineEnv raw st, st.loops⟩)
  | .ok handler_fn =>
      match execute_handler handler_fn (engineEnv raw st)
          (withDefaults raw).event (engineCtx raw now) st.loops with
      | (.ok result, ls2) =>
          (⟨200, .success result⟩,
           ⟨(engineLoad execM raw st).state, engineEnv raw st, ls2⟩)
      | (.error e, ls2) =>
          (⟨200, .failure e.message (format_exc e)⟩,
           ⟨(engineLoad execM raw st).state, engineEnv raw st, ls2⟩)

/-! ## Concrete fixtures (used to instantiate the statements below) -/

/-- A concrete immediate handler returning `None`. -/
def sampleHandler : Handler := .immediate (fun _ _ _ => .ok .null)

/-- A module executor whose module has the single callable attribute `fn`. -/
def execEmpty : String → Except String PyModule :=
  fun _ => .ok [("fn", .callable sampleHandler)]

/-- The same executor, observing (and ignoring) the process environment. -/
def execConstM : Env → String → Except String PyModule :=
  fun _ _ => .ok [("fn", .callable sampleHandler)]

/-- The runtime state at process start: nothing cached, no file written. -/
def emptyState : RtState := ⟨none, none, none⟩

/-- A state whose cache slot holds `sampleHandler` for source text `"c"`. -/
def hitState : RtState := ⟨some sampleHandler, some "c", some "c"⟩

/-- A coroutine that suspends once and then yields `42`. -/
def coro42 : Coro HandlerResult := .later (.done (.ok (.int 42)))

/-- A concrete suspending handler whose coroutine yields `42`. -/
def sampleAsyncHandler : Handler := .suspending (fun _ _ _ => coro42)

/-- A module executor whose module's `fn` is the suspending handler. -/
def execAsyncM : Env → String → Except String PyModule :=
  fun _ _ => .ok [("fn", .callable sampleAsyncHandler)]

/-- A concrete invocation context created at instant 0. -/
def ctx0 : LambdaContext := ⟨"unknown", "1", 128, 30, 0⟩

/-- The loop book-keeping at process start. -/
def ls0 : LoopState := ⟨0, [], []⟩

/-- A concrete parsed `/invoke` request with an environment overlay. -/
def rawSample : RawRequest :=
  ⟨some "c", some "m.fn", some .null, some [("K", "V")], none, none, none⟩

/-- A concrete request whose descriptor has no separator. -/
def rawBad : RawRequest :=
  ⟨some "c", some "nodot", some .null, some [("K", "V")], none, none, none⟩

/-- A concrete engine state at process start. -/
def engineState0 : EngineState := ⟨emptyState, [], ls0⟩

/-! ## Helper lemmas -/

/-- The diagnostic trace text is never empty: it always starts with the
traceback banner. -/
theorem format_exc_ne_empty (e : PyError) : format_exc e ≠ "" := by
  intro h
  have hlen : (format_exc e).length = 0 := by rw [h]; rfl
  rw [format_exc, String.length_append] at hlen
  have hpos : 0 < ("Traceback (most recent call last):\n").length := by decide
  omega

/-! ## Claim theorems -/

/-- Claim C4: `get_remaining_time_in_millis` returns
`max(0, (time_limit - elapsed) * 1000)` truncated to an integer, is never
negative, and is non-increasing as wall-clock time advances past the
context's creation instant. -/
theorem remaining_time_spec (ctx : LambdaContext) (now1 now2 : ℚ)
    (h : now1 ≤ now2) :
    ctx.get_remaining_time_in_millis now1
      = ⌊max 0 (((ctx.timeout_sec : ℚ) - (now1 - ctx.start_time)) * 1000)⌋
    ∧ 0 ≤ ctx.get_remaining_time_in_millis now1
    ∧ ctx.get_remaining_time_in_millis now2 ≤ ctx.get_remaining_time_in_millis now1 := by
  refine ⟨rfl, Int.floor_nonneg.mpr (le_max_left 0 _), ?_⟩
  exact Int.floor_le_floor (max_le_max le_rfl (by nlinarith))

/-- Witness for C4: a context with a 30 second budget created at instant 0,
queried at instants 10 and 40. -/
theorem remaining_time_spec_witness :
    0 ≤ ctx0.get_remaining_time_in_millis 10
    ∧ ctx0.get_remaining_time_in_millis 40 ≤ ctx0.get_remaining_time_in_millis 10 :=
  ⟨(remaining_time_spec ctx0 10 40 (by norm_num)).2.1,
   (remaining_time_spec ctx0 10 40 (by norm_num)).2.2⟩

/-- Claim C10: each omitted field of an inbound request is replaced by its
specified default: empty code, handler `"handler.handler"`, empty event
mapping, empty env, function name `"unknown"`, 128 MB, 30 seconds. -/
theorem request_defaults_spec (r : RawRequest) :
    (withDefaults r).code = r.code.getD ""
    ∧ (withDefaults r).handler = r.handler.getD "handler.handler"
    ∧ (withDefaults r).event = r.event.getD (.dict [])
    ∧ (withDefaults r).env = r.env.getD []
    ∧ (withDefaults r).function_name = r.function_name.getD "unknown"
    ∧ (withDefaults r).memory_mb = r.memory_mb.getD 128
    ∧ (withDefaults r).timeout_sec = r.timeout_sec.getD 30 :=
  ⟨rfl, rfl, rfl, rfl, rfl, rfl, rfl⟩

/-- Claim C2: model transparency of dispatch — when a suspending handler,
driven through its suspension points, yields exactly what an immediate
handler returns, `execute_handler` produces the same plain result for both
models; in particular a suspending handler that eventually yields `v`
produces `Except.ok v`, exactly like an immediate handler returning `v`. -/
theorem dispatch_model_transparency
    (f : Env → PyVal → LambdaContext → Coro HandlerResult)
    (g : Env → PyVal → LambdaContext → HandlerResult)
    (hfg : ∀ env event context, run_until_complete (f env event context) = g env event context)
    (env : Env) (event : PyVal) (context : LambdaContext) (ls1 ls2 : LoopState) :
    (execute_handler (.suspending f) env event context ls1).1
      = (execute_handler (.immediate g) env event context ls2).1
    ∧ ∀ v, g env event context = .ok v →
        (execute_handler (.suspending f) env event context ls1).1 = Except.ok v := by
  constructor
  · simp [execute_handler, execute_handler_async, hfg]
  · intro v hv
    simp [execute_handler, execute_handler_async, hfg, hv]

/-- Witness for C2: a suspending handler yielding `42` after one suspension
and an immediate handler returning `42` produce the same `Except.ok 42`. -/
theorem dispatch_model_transparency_witness :
    (execute_handler (.suspending (fun _ _ _ => coro42)) [] .null ctx0 ls0).1
      = (execute_handler (.immediate (fun _ _ _ => .ok (.int 42))) [] .null ctx0 ls0).1
    ∧ (execute_handler (.suspending (fun _ _ _ => coro42)) [] .null ctx0 ls0).1
      = Except.ok (.int 42) :=
  ⟨(dispatch_model_transparency (fun _ _ _ => coro42) (fun _ _ _ => .ok (.int 42))
      (fun _ _ _ => rfl) [] .null ctx0 ls0 ls0).1,
   (dispatch_model_transparency (fun _ _ _ => coro42) (fun _ _ _ => .ok (.int 42))
      (fun _ _ _ => rfl) [] .null ctx0 ls0 ls0).2 (.int 42) rfl⟩

/-- Claim C7: dispatching a suspending handler creates one fresh private
event loop (the next unused id), drives the handler on it, and closes that
loop afterwards on every outcome — the set of open loops is restored and
the next dispatch would use a strictly newer id, so no loop is reused;
dispatching an immediate handler touches no loop state at all. -/
theorem dispatch_scheduler_lifecycle
    (f : Env → PyVal → LambdaContext → Coro HandlerResult)
    (g : Env → PyVal → LambdaContext → HandlerResult)
    (env : Env) (event : PyVal) (context : LambdaContext) (ls : LoopState) :
    (execute_handler (.suspending f) env event context ls).2.openLoops = ls.openLoops
    ∧ (execute_handler (.suspending f) env event context ls).2.events
        = ls.events ++ [.created ls.nextId, .closed ls.nextId]
    ∧ (execute_handler (.suspending f) env event context ls).2.nextId = ls.nextId + 1
    ∧ (execute_handler (.suspending f) env event context ls).1
        = run_until_complete (f env event context)
    ∧ (execute_handler (.immediate g) env event context ls).2 = ls := by
  refine ⟨?_, ?_, rfl, rfl, rfl⟩
  · simp [execute_handler, execute_handler_async, new_event_loop, close_loop]
  · simp [execute_handler, execute_handler_async, new_event_loop, close_loop]

/-- Exhaustive description of the resolver path `resolve_function`: it
always counts as a Resolver run; on success the cache slot holds exactly
the new pair (and the file the new source); on failure the cache slot is
untouched; the file is written exactly when the descriptor passes the
length-2 format check; and the format error occurs exactly when the split
does not have two parts. -/
theorem resolve_function_cases (execM : String → Except String PyModule)
    (code handler : String) (s : RtState) :
    (resolve_function execM code handler s).resolverRan = true
    ∧ (∀ hd, (resolve_function execM code handler s).result = .ok hd →
        (resolve_function execM code handler s).state = ⟨some hd, some code, some code⟩)
    ∧ (∀ e, (resolve_function execM code handler s).result = .error e →
        (resolve_function execM code handler s).state.cached_code = s.cached_code
        ∧ (resolve_function execM code handler s).state.cached_handler = s.cached_handler)
    ∧ ((rsplitDot handler).length = 2 →
        (resolve_function execM code handler s).wroteFile = true
        ∧ (resolve_function execM code handler s).state.functionFile = some code)
    ∧ ((rsplitDot handler).length ≠ 2 →
        (resolve_function execM code handler s).wroteFile = false
        ∧ (resolve_function execM code handler s).state = s)
    ∧ ((resolve_function execM code handler s).result
          = .error (.invalidHandlerFormat handler)
        ↔ (rsplitDot handler).length ≠ 2) := by
  rcases hsplit : rsplitDot handler with _ | ⟨a, _ | ⟨b, _ | ⟨c, t⟩⟩⟩
  · simp [resolve_function, hsplit]
  · simp [resolve_function, hsplit]
  · rcases hm : execM code with msg | attrs
    · simp [resolve_function, hsplit, hm]
    · rcases hl : attrs.lookup b with _ | ⟨hc | v⟩ <;>
        simp [resolve_function, hsplit, hm, hl]
  · simp [resolve_function, hsplit]

/-- The cache-hit equation: when the slot holds an artifact for exactly the
incoming source text, `load_function` returns it and changes nothing. -/
theorem load_function_hit (execM : String → Except String PyModule)
    (code handler : String) (s : RtState) (h : Handler)
    (hc : s.cached_code = some code) (hh : s.cached_handler = some h) :
    load_function execM code handler s = ⟨.ok h, s, false, false⟩ := by
  simp [load_function, hc, hh]

/-- The cache-miss equation: when the slot does not hold an artifact for
the incoming source text, `load_function` is the resolver path. -/
theorem load_function_miss (execM : String → Except String PyModule)
    (code handler : String) (s : RtState)
    (hmiss : ¬(s.cached_code = some code ∧ s.cached_handler ≠ none)) :
    load_function execM code handler s = resolve_function execM code handler s := by
  rcases hc : s.cached_code with _ | c
  · rcases hh : s.cached_handler with _ | h0 <;> simp [load_function, hc, hh]
  · rcases hh : s.cached_handler with _ | h0
    · simp [load_function, hc, hh]
    · have hne : c ≠ code := fun h1 => hmiss ⟨by rw [hc, h1], by simp [hh]⟩
      simp [load_function, hc, hh, hne]

/-- Claim C1: on a hit (incoming source equals the cached source and an
artifact is cached) the cached artifact is returned with no Resolver run
and no state change; otherwise the Resolver runs, and on success the
single cache slot holds exactly the new (source text, artifact) pair. -/
theorem load_function_cache_spec (execM : String → Except String PyModule)
    (code handler : String) (s : RtState) :
    (∀ h, s.cached_code = some code → s.cached_handler = some h →
        load_function execM code handler s = ⟨.ok h, s, false, false⟩)
    ∧ (¬(s.cached_code = some code ∧ s.cached_handler ≠ none) →
        (load_function execM code handler s).resolverRan = true
        ∧ ∀ h, (load_function execM code handler s).result = .ok h →
            (load_function execM code handler s).state.cached_code = some code
            ∧ (load_function execM code handler s).state.cached_handler = some h) := by
  constructor
  · intro h hc hh
    exact load_function_hit execM code handler s h hc hh
  · intro hmiss
    rw [load_function_miss execM code handler s hmiss]
    obtain ⟨hran, hok, -⟩ := resolve_function_cases execM code handler s
    refine ⟨hran, fun h hres => ⟨?_, ?_⟩⟩ <;> rw [hok h hres]

/-- Witness for C1: a hit on the cached source `"c"` returns the cached
artifact untouched; the changed source `"c2"` makes the Resolver run. -/
theorem load_function_cache_spec_witness :
    load_function execEmpty "c" "m.f" hitState
      = ⟨.ok sampleHandler, hitState, false, false⟩
    ∧ (load_function execEmpty "c2" "m.f" hitState).resolverRan = true :=
  ⟨(load_function_cache_spec execEmpty "c" "m.f" hitState).1 sampleHandler rfl rfl,
   ((load_function_cache_spec execEmpty "c2" "m.f" hitState).2
      (fun hcontra => absurd hcontra.1 (by decide))).1⟩

/-- Claim C6: whenever resolution fails — invalid descriptor, module load
failure, missing attribute, or non-callable attribute — the cache slot
(`cached_code`, `cached_handler`) is exactly what it was before. -/
theorem load_function_failure_preserves_cache
    (execM : String → Except String PyModule)
    (code handler : String) (s : RtState) :
    ∀ e, (load_function execM code handler s).result = .error e →
      (load_function execM code handler s).state.cached_code = s.cached_code
      ∧ (load_function execM code handler s).state.cached_handler = s.cached_handler := by
  intro e
  by_cases hhit : s.cached_code = some code ∧ s.cached_handler ≠ none
  · obtain ⟨hc, hh⟩ := hhit
    rcases hh2 : s.cached_handler with _ | h0
    · exact absurd hh2 hh
    · rw [load_function_hit execM code handler s h0 hc hh2]
      intro hres
      exact Except.noConfusion hres
  · rw [load_function_miss execM code handler s hhit]
    exact (resolve_function_cases execM code handler s).2.2.1 e

/-- Witness for C6: a first invocation with an invalid descriptor fails
and leaves the empty slot empty. -/
theorem load_function_failure_preserves_cache_witness :
    (load_function execEmpty "c" "nodot" emptyState).state.cached_code
      = emptyState.cached_code
    ∧ (load_function execEmpty "c" "nodot" emptyState).state.cached_handler
      = emptyState.cached_handler :=
  load_function_failure_preserves_cache execEmpty "c" "nodot" emptyState
    (.invalidHandlerFormat "nodot") rfl

/-- Counterexample to C3: the descriptor `"mod."` splits into the two parts
`["mod", ""]`, of which the second is empty, yet resolution does **not**
fail with the invalid-format error — the code checks only that the split
has two parts, never their non-emptiness, and fails later with
handler-not-found for the empty name. -/
theorem handler_format_counterexample :
    rsplitDot "mod." = ["mod", ""]
    ∧ (load_function execEmpty "c" "mod." emptyState).result
        = .error (.handlerNotFound "")
    ∧ PyError.handlerNotFound "" ≠ PyError.invalidHandlerFormat "mod." := by
  refine ⟨by decide, by rfl, by decide⟩

/-- Claim C3 as amended: resolution fails with the invalid-format error if
and only if splitting on the last separator does not yield exactly two
parts (their emptiness is not checked); `"module"` has no separator and
splits into one part, `"mod.fn"` splits into `"mod"` and `"fn"`. -/
theorem handler_format_check_amended (execM : String → Except String PyModule)
    (code handler : String) (s : RtState) :
    ((resolve_function execM code handler s).result
        = .error (.invalidHandlerFormat handler)
      ↔ (rsplitDot handler).length ≠ 2)
    ∧ rsplitDot "module" = ["module"]
    ∧ rsplitDot "mod.fn" = ["mod", "fn"] :=
  ⟨(resolve_function_cases execM code handler s).2.2.2.2.2, by decide, by decide⟩

/-- Counterexample to C9: a cache miss whose descriptor fails the format
check is a Resolver run that writes nothing — the format error is raised
before materialization. -/
theorem materialization_counterexample :
    (load_function execEmpty "c" "nofmt" emptyState).resolverRan = true
    ∧ (load_function execEmpty "c" "nofmt" emptyState).wroteFile = false
    ∧ (load_function execEmpty "c" "nofmt" emptyState).state.functionFile = none :=
  ⟨rfl, rfl, rfl⟩

/-- Claim C9 as amended: a cache hit writes nothing; a cache miss writes
the incoming source text to the fixed location (overwriting whatever was
there) exactly when the descriptor passes the format check, and writes
nothing when the format check fails. -/
theorem materialization_amended (execM : String → Except String PyModule)
    (code handler : String) (s : RtState) :
    (∀ h, s.cached_code = some code → s.cached_handler = some h →
        (load_function execM code handler s).wroteFile = false
        ∧ (load_function execM code handler s).state.functionFile = s.functionFile)
    ∧ (¬(s.cached_code = some code ∧ s.cached_handler ≠ none) →
        ((rsplitDot handler).length = 2 →
          (load_function execM code handler s).wroteFile = true
          ∧ (load_function execM code handler s).state.functionFile = some code)
        ∧ ((rsplitDot handler).length ≠ 2 →
          (load_function execM code handler s).wroteFile = false
          ∧ (load_function execM code handler s).state.functionFile = s.functionFile)) := by
  constructor
  · intro h hc hh
    rw [load_function_hit execM code handler s h hc hh]
    exact ⟨rfl, rfl⟩
  · intro hmiss
    rw [load_function_miss execM code handler s hmiss]
    obtain ⟨-, -, -, h2, h3, -⟩ := resolve_function_cases execM code handler s
    exact ⟨h2, fun hlen => ⟨(h3 hlen).1, by rw [(h3 hlen).2]⟩⟩

/-- Witness for C9 (amended): the hit on `"c"` writes nothing; the miss on
`"c2"` with the well-formed descriptor `"m.f"` overwrites the file with
`"c2"` even though that resolution then fails (no `f` attribute). -/
theorem materialization_amended_witness :
    (load_function execEmpty "c" "m.f" hitState).wroteFile = false
    ∧ (load_function execEmpty "c2" "m.f" hitState).wroteFile = true
    ∧ (load_function execEmpty "c2" "m.f" hitState).state.functionFile = some "c2" := by
  refine ⟨((materialization_amended execEmpty "c" "m.f" hitState).1
      sampleHandler rfl rfl).1, ?_, ?_⟩
  · exact (((materialization_amended execEmpty "c2" "m.f" hitState).2
      (fun hcontra => absurd hcontra.1 (by decide))).1 (by decide)).1
  · exact (((materialization_amended execEmpty "c2" "m.f" hitState).2
      (fun hcontra => absurd hcontra.1 (by decide))).1 (by decide)).2

/-- Setting one key then reading: the set key is seen, others unchanged. -/
theorem envGet_envSet (k k2 v2 : String) (e : Env) :
    envGet k (envSet k2 v2 e) = if k2 = k then some v2 else envGet k e := by
  induction e with
  | nil => by_cases h2 : k2 = k <;> simp [envSet, envGet, h2]
  | cons hd tl ih =>
    obtain ⟨k3, v3⟩ := hd
    by_cases h1 : k3 = k2
    · subst h1
      by_cases h2 : k3 = k <;> simp [envSet, envGet, h2]
    · by_cases h2 : k3 = k
      · subst h2
        have h3 : ¬(k2 = k3) := fun hx => h1 hx.symm
        simp [envSet, envGet, h1, h3]
      · simp [envSet, envGet, h1, h2, ih]

/-- Reading the environment after an overlay was applied: the overlay's own
binding for the key (its last pair, as in a dict) wins; keys the overlay
does not bind keep their previous value. -/
theorem envGet_applyEnv (ov : Env) : ∀ (e : Env) (k : String),
    envGet k (applyEnv ov e)
      = match lookupLast k ov with
        | some v => some v
        | none => envGet k e := by
  induction ov with
  | nil => intro e k; rfl
  | cons hd tl ih =>
    intro e k
    obtain ⟨k2, v2⟩ := hd
    have hstep : applyEnv ((k2, v2) :: tl) e = applyEnv tl (envSet k2 v2 e) := rfl
    rw [hstep, ih]
    rcases hl : lookupLast k tl with _ | v
    · by_cases h2 : k2 = k <;> simp [lookupLast, hl, envGet_envSet, h2]
    · simp [lookupLast, hl]

/-- Branch equations for `handle_invoke`: what the engine answers when
loading fails, and when the dispatched handler succeeds or raises. -/
theorem handle_invoke_cases (execM : Env → String → Except String PyModule)
    (raw : RawRequest) (now : ℚ) (st : EngineState) :
    (∀ e, (engineLoad execM raw st).result = .error e →
        handle_invoke execM raw now st
          = (⟨200, .failure e.message (format_exc e)⟩,
             ⟨(engineLoad execM raw st).state, engineEnv raw st, st.loops⟩))
    ∧ (∀ hf, (engineLoad execM raw st).result = .ok hf →
        (∀ v ls2, execute_handler hf (engineEnv raw st) (withDefaults raw).event
              (engineCtx raw now) st.loops = (.ok v, ls2) →
            handle_invoke execM raw now st
              = (⟨200, .success v⟩,
                 ⟨(engineLoad execM raw st).state, engineEnv raw st, ls2⟩))
        ∧ (∀ e ls2, execute_handler hf (engineEnv raw st) (withDefaults raw).event
              (engineCtx raw now) st.loops = (.error e, ls2) →
            handle_invoke execM raw now st
              = (⟨200, .failure e.message (format_exc e)⟩,
                 ⟨(engineLoad execM raw st).state, engineEnv raw st, ls2⟩))) := by
  refine ⟨?_, fun hf hok => ⟨?_, ?_⟩⟩
  · intro e he
    unfold handle_invoke
    rw [he]
  · intro v ls2 hex
    unfold handle_invoke
    rw [hok]
    simp only [hex]
  · intro e ls2 hex
    unfold handle_invoke
    rw [hok]
    simp only [hex]


/-- Claim C5: every invocation is answered at transport level with HTTP
200; a failing invocation (load failure or handler exception) carries the
body-level payload `{statusCode: 500, error: str(e), stack: trace}` with a
non-empty diagnostic trace, and a successful one carries
`{statusCode: 200, body: result}` with the handler's value verbatim. -/
theorem invoke_outcome_payload_spec (execM : Env → String → Except String PyModule)
    (raw : RawRequest) (now : ℚ) (st : EngineState) :
    (handle_invoke execM raw now st).1.httpStatus = 200
    ∧ (∀ err stk, (handle_invoke execM raw now st).1.payload = .failure err stk →
        (ResponsePayload.failure err stk).statusCode = 500 ∧ stk ≠ "")
    ∧ (∀ v, (handle_invoke execM raw now st).1.payload = .success v →
        (ResponsePayload.success v).statusCode = 200)
    ∧ (∀ e, (engineLoad execM raw st).result = .error e →
        (handle_invoke execM raw now st).1.payload
          = .failure e.message (format_exc e))
    ∧ (∀ hf v, (engineLoad execM raw st).result = .ok hf →
        (execute_handler hf (engineEnv raw st) (withDefaults raw).event
            (engineCtx raw now) st.loops).1 = .ok v →
        (handle_invoke execM raw now st).1.payload = .success v)
    ∧ (∀ hf e, (engineLoad execM raw st).result = .ok hf →
        (execute_handler hf (engineEnv raw st) (withDefaults raw).event
            (engineCtx raw now) st.loops).1 = .error e →
        (handle_invoke execM raw now st).1.payload
          = .failure e.message (format_exc e)) := by
  obtain ⟨herr, hok⟩ := handle_invoke_cases execM raw now st
  rcases hres : (engineLoad execM raw st).result with e0 | hf0
  · rw [herr e0 hres]
    refine ⟨rfl, ?_, fun v _ => rfl, ?_, ?_, ?_⟩
    · intro err stk hp
      injection hp with h1 h2
      exact ⟨rfl, h2 ▸ format_exc_ne_empty e0⟩
    · intro e he
      injection he with h1
      rw [h1]
    · intro hff v hok2 _
      exact Except.noConfusion hok2
    · intro hff e hok2 _
      exact Except.noConfusion hok2
  · obtain ⟨hsucc, hfail⟩ := hok hf0 hres
    rcases hexec : execute_handler hf0 (engineEnv raw st) (withDefaults raw).event
        (engineCtx raw now) st.loops with ⟨r, ls2⟩
    rcases r with e0 | v0
    · rw [hfail e0 ls2 hexec]
      refine ⟨rfl, ?_, fun v _ => rfl, ?_, ?_, ?_⟩
      · intro err stk hp
        injection hp with h1 h2
        exact ⟨rfl, h2 ▸ format_exc_ne_empty e0⟩
      · intro e he
        exact Except.noConfusion he
      · intro hff v hok2 hex2
        injection hok2 with h1
        subst h1
        rw [hexec] at hex2
        exact Except.noConfusion hex2
      · intro hff e hok2 hex2
        injection hok2 with h1
        subst h1
        rw [hexec] at hex2
        injection hex2 with h2
        rw [h2]
    · rw [hsucc v0 ls2 hexec]
      refine ⟨rfl, ?_, fun v _ => rfl, ?_, ?_, ?_⟩
      · intro err stk hp
        exact ResponsePayload.noConfusion hp
      · intro e he
        exact Except.noConfusion he
      · intro hff v hok2 hex2
        injection hok2 with h1
        subst h1
        rw [hexec] at hex2
        injection hex2 with h2
        rw [h2]
      · intro hff e hok2 hex2
        injection hok2 with h1
        subst h1
        rw [hexec] at hex2
        exact Except.noConfusion hex2

/-- Witness for C5: the sample request resolves `fn` in the sample module
and the immediate handler returns `None`, so the engine answers HTTP 200
with a success payload; the bad descriptor yields the invalid-format
failure payload, still under HTTP 200. -/
theorem invoke_outcome_payload_spec_witness :
    (handle_invoke execConstM rawSample 0 engineState0).1.httpStatus = 200
    ∧ (handle_invoke execConstM rawSample 0 engineState0).1.payload
        = .success .null
    ∧ (handle_invoke execConstM rawBad 0 engineState0).1.payload
        = .failure (PyError.invalidHandlerFormat "nodot").message
            (format_exc (.invalidHandlerFormat "nodot")) :=
  ⟨(invoke_outcome_payload_spec execConstM rawSample 0 engineState0).1,
   (invoke_outcome_payload_spec execConstM rawSample 0 engineState0).2.2.2.2.1
      sampleHandler .null rfl rfl,
   (invoke_outcome_payload_spec execConstM rawBad 0 engineState0).2.2.2.1
      (.invalidHandlerFormat "nodot") rfl⟩

/-- Claim C8: the environment overlay is applied to the process-wide
environment before resolution — the final environment is exactly the
overlaid one on every outcome (process lifetime), the module executor is
only ever consulted under the overlaid environment, every binding the
overlay makes is visible afterwards, and a resolved handler of either
execution model — immediate or suspending — is invoked under the
overlaid environment. -/
theorem env_overlay_spec (execM : Env → String → Except String PyModule)
    (raw : RawRequest) (now : ℚ) (st : EngineState) :
    (handle_invoke execM raw now st).2.procEnv
        = applyEnv (withDefaults raw).env st.procEnv
    ∧ (∀ execM2 : Env → String → Except String PyModule,
        execM2 (engineEnv raw st) = execM (engineEnv raw st) →
        handle_invoke execM2 raw now st = handle_invoke execM raw now st)
    ∧ (∀ k v, lookupLast k (withDefaults raw).env = some v →
        envGet k ((handle_invoke execM raw now st).2.procEnv) = some v)
    ∧ (∀ f, (engineLoad execM raw st).result = .ok (.immediate f) →
        (handle_invoke execM raw now st).1.payload
          = match f (engineEnv raw st) (withDefaults raw).event (engineCtx raw now) with
            | .ok v => .success v
            | .error e => .failure e.message (format_exc e))
    ∧ (∀ f, (engineLoad execM raw st).result = .ok (.suspending f) →
        (handle_invoke execM raw now st).1.payload
          = match run_until_complete
                (f (engineEnv raw st) (withDefaults raw).event (engineCtx raw now)) with
            | .ok v => .success v
            | .error e => .failure e.message (format_exc e)) := by
  obtain ⟨herr, hok⟩ := handle_invoke_cases execM raw now st
  have hstate : (handle_invoke execM raw now st).2.procEnv = engineEnv raw st := by
    rcases hres : (engineLoad execM raw st).result with e0 | hf0
    · rw [herr e0 hres]
    · obtain ⟨hsucc, hfail⟩ := hok hf0 hres
      rcases hexec : execute_handler hf0 (engineEnv raw st) (withDefaults raw).event
          (engineCtx raw now) st.loops with ⟨r, ls2⟩
      rcases r with e0 | v0
      · rw [hfail e0 ls2 hexec]
      · rw [hsucc v0 ls2 hexec]
  refine ⟨hstate, ?_, ?_, ?_, ?_⟩
  · intro execM2 h
    unfold handle_invoke engineLoad
    rw [h]
  · intro k v hkv
    rw [hstate]
    unfold engineEnv
    rw [envGet_applyEnv, hkv]
  · intro f hresf
    obtain ⟨hsucc, hfail⟩ := hok (.immediate f) hresf
    have hexec : execute_handler (.immediate f) (engineEnv raw st)
        (withDefaults raw).event (engineCtx raw now) st.loops
        = (f (engineEnv raw st) (withDefaults raw).event (engineCtx raw now), st.loops) := rfl
    rcases hf2 : f (engineEnv raw st) (withDefaults raw).event (engineCtx raw now) with e0 | v0
    · rw [hfail e0 st.loops (by rw [hexec, hf2])]
    · rw [hsucc v0 st.loops (by rw [hexec, hf2])]
  · intro f hresf
    obtain ⟨hsucc, hfail⟩ := hok (.suspending f) hresf
    have hexec : execute_handler (.suspending f) (engineEnv raw st)
        (withDefaults raw).event (engineCtx raw now) st.loops
        = (run_until_complete
             (f (engineEnv raw st) (withDefaults raw).event (engineCtx raw now)),
           close_loop st.loops.nextId (new_event_loop st.loops).2) := rfl
    rcases hf2 : run_until_complete
        (f (engineEnv raw st) (withDefaults raw).event (engineCtx raw now)) with e0 | v0
    · rw [hfail e0 (close_loop st.loops.nextId (new_event_loop st.loops).2)
        (by rw [hexec, hf2])]
    · rw [hsucc v0 (close_loop st.loops.nextId (new_event_loop st.loops).2)
        (by rw [hexec, hf2])]

/-- Witness for C8: the sample request's overlay `{"K": "V"}` is visible in
the process environment after the invocation, an executor agreeing on the
overlaid environment gives the identical response, and the resolved
handler determines the payload under the overlaid environment on both
execution models: the immediate handler returning `None` and the
suspending handler yielding `42`. -/
theorem env_overlay_spec_witness :
    envGet "K" ((handle_invoke execConstM rawSample 0 engineState0).2.procEnv)
      = some "V"
    ∧ handle_invoke execConstM rawSample 0 engineState0
        = handle_invoke execConstM rawSample 0 engineState0
    ∧ (handle_invoke execConstM rawSample 0 engineState0).1.payload
        = .success .null
    ∧ (handle_invoke execAsyncM rawSample 0 engineState0).1.payload
        = .success (.int 42) :=
  ⟨(env_overlay_spec execConstM rawSample 0 engineState0).2.2.1 "K" "V" (by decide),
   (env_overlay_spec execConstM rawSample 0 engineState0).2.1 execConstM rfl,
   (env_overlay_spec execConstM rawSample 0 engineState0).2.2.2.1
      (fun _ _ _ => .ok .null) rfl,
   (env_overlay_spec execAsyncM rawSample 0 engineState0).2.2.2.2
      (fun _ _ _ => coro42) rfl⟩

/-- Witness for C3 (amended): the separator-free descriptor `"nofmt2"`
splits into one part and resolution fails with the invalid-format error. -/
theorem handler_format_check_amended_witness :
    (resolve_function execEmpty "c" "nofmt2" emptyState).result
      = .error (.invalidHandlerFormat "nofmt2")
    ∧ (rsplitDot "nofmt2").length ≠ 2 :=
  ⟨((handler_format_check_amended execEmpty "c" "nofmt2" emptyState).1).mpr (by decide),
   by decide⟩
